import Mathlib

/-!
Shallow embedding of the inventory-and-order transaction engine of
`src/E-commerce.py` (classes `Product`, `Order`, `CustomerAgent`,
`Marketplace`).

Modelling notes, each traceable to the source:
* Python `float` prices/budgets are modelled as `ℚ`; `int` stock as `ℤ`
  (Python ints are signed and `product.stock -= 1` can make them negative).
* A customer's `shopping_cart` holds *references* to the very `Product`
  objects stored in `Marketplace.products` (the menus only ever pass
  objects obtained from `get_available_products`).  We model this aliasing
  by letting the cart hold *indices* into the marketplace product list;
  mutating `products[i].stock` is then visible through every cart entry
  with index `i`.
* `Order.timestamp` (`datetime.now()`) carries no transactional content and
  is omitted; `Order.products = products.copy()` is a shallow copy whose
  elements alias the catalog.  We snapshot the product *values* at commit
  time; since no core operation ever mutates a price, every price-related
  statement about an order is unaffected by this choice.
-/

inductive ProductCategory where
  | electronics
  | clothing
  | books
  | home
  | sports
deriving DecidableEq, Repr

/-- `Product` dataclass: id, name, category, price, stock, seller_id. -/
structure Product where
  id : ℤ
  name : String
  category : ProductCategory
  price : ℚ
  stock : ℤ
  sellerId : ℤ
deriving DecidableEq, Repr

/-- `Order` dataclass (timestamp omitted, see module docstring). -/
structure Order where
  orderId : ℕ
  customerId : ℤ
  products : List Product
  totalAmount : ℚ
  status : String
deriving DecidableEq, Repr

/-- The per-customer state of `CustomerAgent` (`preferences` only feeds the
display-side `browse_products` filter and is not part of the transaction
engine).  `shoppingCart` and `purchaseHistory` hold indices into the
marketplace product list, modelling Python object references. -/
structure Customer where
  agentId : ℤ
  name : String
  budget : ℚ
  purchaseHistory : List ℕ
  shoppingCart : List ℕ
deriving DecidableEq, Repr

/-- The mutable state touched by the transaction engine: the
`Marketplace` fields `products`, `orders`, `order_counter`, together with
the acting customer (`current_customer`). -/
structure MState where
  products : List Product
  orders : List Order
  orderCounter : ℕ
  customer : Customer
deriving DecidableEq, Repr

/-- `Marketplace.check_stock`: find the first product with the given id;
the Python `product and product.stock > 0` is falsy when no product is
found. -/
def checkStock (s : MState) (pid : ℤ) : Bool :=
  match s.products.find? (fun p => p.id == pid) with
  | some p => decide (0 < p.stock)
  | none => false

/-- The stock test `process_order` applies to one cart entry:
`self.check_stock(product.id)` for the product referenced by index `i`
(an index outside the catalog — impossible in any state the program
builds — has no product, hence no id to pass the check). -/
def stockOk (s : MState) (i : ℕ) : Bool :=
  match s.products[i]? with
  | some p => checkStock s p.id
  | none => false

/-- The product values a list of cart indices currently references. -/
def cartItems (s : MState) (l : List ℕ) : List Product :=
  l.filterMap (fun i => s.products[i]?)

/-- `view_cart`: `sum(product.price for product in self.shopping_cart)`
(the printing is display-only). -/
def cartTotal (s : MState) : ℚ :=
  ((cartItems s s.customer.shoppingCart).map Product.price).sum

/-- One step of the commit loop `product.stock -= 1`: decrement the stock
of the catalog slot the cart entry references. -/
def decStockAt (ps : List Product) (i : ℕ) : List Product :=
  match ps[i]? with
  | some p => ps.set i { p with stock := p.stock - 1 }
  | none => ps

/-- The whole commit loop `for product in products: product.stock -= 1`. -/
def decrementAll (ps : List Product) (l : List ℕ) : List Product :=
  l.foldl decStockAt ps

/-- The `Order` value `process_order` builds when every stock check passes:
id = current counter, the product snapshot, total = sum of their prices
(recomputed here, before any stock decrement), status `"COMPLETED"`. -/
def newOrder (s : MState) (custId : ℤ) (l : List ℕ) : Order :=
  { orderId := s.orderCounter
    customerId := custId
    products := cartItems s l
    totalAmount := ((cartItems s l).map Product.price).sum
    status := "COMPLETED" }

/-- `Marketplace.process_order`: re-check stock for every entry, and if all
pass, build the `Order` (see `newOrder`), decrement each entry's stock,
append the order to the ledger and bump the counter.  On any failed check:
return `none` with the state untouched. -/
def processOrder (s : MState) (custId : ℤ) (l : List ℕ) :
    Option Order × MState :=
  if l.all (stockOk s) then
    (some (newOrder s custId l),
      { s with
          products := decrementAll s.products l
          orders := s.orders ++ [newOrder s custId l]
          orderCounter := s.orderCounter + 1 })
  else
    (none, s)

/-- `CustomerAgent.add_to_cart`: append the referenced product iff
`marketplace.check_stock(product.id)` holds and its price is at most the
current budget; returns the Python `bool`. -/
def addToCart (s : MState) (i : ℕ) : MState × Bool :=
  match s.products[i]? with
  | some p =>
    if checkStock s p.id ∧ p.price ≤ s.customer.budget then
      ({ s with customer :=
          { s.customer with shoppingCart := s.customer.shoppingCart ++ [i] } },
        true)
    else
      (s, false)
  | none => (s, false)

/-- The filter `p.id != product_id` of `remove_from_cart`, read through a
cart index (a dangling index has no id and is kept; no program-built state
has one, since products are only ever appended). -/
def cartEntryKept (s : MState) (pid : ℤ) (i : ℕ) : Bool :=
  match s.products[i]? with
  | some p => p.id != pid
  | none => true

/-- `CustomerAgent.remove_from_cart`: keep the cart entries whose product
id differs from the given one (removes *all* matches). -/
def removeFromCart (s : MState) (pid : ℤ) : MState :=
  { s with customer :=
      { s.customer with shoppingCart :=
          s.customer.shoppingCart.filter (cartEntryKept s pid) } }

/-- `CustomerAgent.make_purchase`: compute the cart total; if it is within
budget and the cart is non-empty, call `process_order` on the cart; on a
returned order, debit the budget by the total, extend the purchase history
with the cart and clear the cart.  Every other path returns `False` and
changes nothing. -/
def makePurchase (s : MState) : MState × Bool :=
  let total := cartTotal s
  if total ≤ s.customer.budget ∧ s.customer.shoppingCart ≠ [] then
    let r := processOrder s s.customer.agentId s.customer.shoppingCart
    match r.1 with
    | some _ =>
      ({ r.2 with customer :=
          { (r.2).customer with
              budget := (r.2).customer.budget - total
              purchaseHistory :=
                (r.2).customer.purchaseHistory ++ (r.2).customer.shoppingCart
              shoppingCart := [] } },
        true)
    | none => (r.2, false)
  else
    (s, false)

/-- `Marketplace.add_product` (also the effect of `register_seller` on the
catalog: it extends `self.products` with the seller's products). -/
def addProduct (s : MState) (p : Product) : MState :=
  { s with products := s.products ++ [p] }

/-- The operations the program surface (the customer menus plus catalog
population) performs on the transactional state. -/
inductive Op where
  | addProduct (p : Product)
  | addToCart (i : ℕ)
  | removeFromCart (pid : ℤ)
  | makePurchase
deriving DecidableEq, Repr

def applyOp (s : MState) : Op → MState
  | .addProduct p => addProduct s p
  | .addToCart i => (addToCart s i).1
  | .removeFromCart pid => removeFromCart s pid
  | .makePurchase => (makePurchase s).1

def runOps (s : MState) (ops : List Op) : MState :=
  ops.foldl applyOp s

/-- A fresh customer as `CustomerAgent.__init__` builds it: empty history
and cart. -/
def initCustomer (aid : ℤ) (nm : String) (budget : ℚ) : Customer :=
  { agentId := aid, name := nm, budget := budget
    purchaseHistory := [], shoppingCart := [] }

/-- `Marketplace.__init__` plus one registered fresh customer: empty
catalog and ledger, `order_counter = 1`. -/
def initState (aid : ℤ) (nm : String) (budget : ℚ) : MState :=
  { products := [], orders := [], orderCounter := 1
    customer := initCustomer aid nm budget }

/-- States the program can build: some initial registration followed by a
sequence of surface operations. -/
def Reachable (s : MState) : Prop :=
  ∃ aid nm budget ops, s = runOps (initState aid nm budget) ops

/-- The order-ledger bookkeeping facts that hold in every state the
program can build: every ledgered order's total is the sum of its
products' prices, the ledger ids are exactly `1, 2, …, length`, and the
counter sits one past the ledger length. -/
def ordersInv (s : MState) : Prop :=
  (∀ o ∈ s.orders, o.totalAmount = (o.products.map Product.price).sum) ∧
  s.orders.map Order.orderId = List.range' 1 s.orders.length ∧
  s.orderCounter = s.orders.length + 1

/-- The state `make_purchase` leaves behind on the success path: the
`process_order` effects (stock decrement, ledger append, counter bump)
plus the customer updates (budget debit by the cart total, history
extension, cart cleared). -/
def commitState (s : MState) : MState :=
  { s with
      products := decrementAll s.products s.customer.shoppingCart
      orders :=
        s.orders ++ [newOrder s s.customer.agentId s.customer.shoppingCart]
      orderCounter := s.orderCounter + 1
      customer :=
        { s.customer with
            budget := s.customer.budget - cartTotal s
            purchaseHistory :=
              s.customer.purchaseHistory ++ s.customer.shoppingCart
            shoppingCart := [] } }

/-- A one-product catalog whose product is sold out while it still sits in
the customer's cart: the spec's "concurrently sold" scenario. -/
def soldOutState : MState :=
  ⟨[⟨1, "P", .electronics, 100, 0, 1⟩], [], 1, ⟨7, "C", 150, [], [0]⟩⟩

/-- A one-product catalog (price 100, stock 1), budget 150, the product
already staged in the cart: the spec's happy-path scenario. -/
def purchaseReadyState : MState :=
  ⟨[⟨1, "P", .electronics, 100, 1, 1⟩], [], 1, ⟨7, "C", 150, [], [0]⟩⟩

/-- Budget 10, a 20-priced item in the catalog, empty cart. -/
def lowBudgetState : MState :=
  ⟨[⟨1, "X", .clothing, 20, 5, 1⟩], [], 1, ⟨7, "C", 10, [], []⟩⟩

/-- Budget 10 with the 20-priced item already sitting in the cart. -/
def overBudgetState : MState :=
  ⟨[⟨1, "X", .clothing, 20, 5, 1⟩], [], 1, ⟨7, "C", 10, [], [0]⟩⟩

/-- Budget 5, a 100-priced in-stock product, empty cart. -/
def poorCustomerState : MState :=
  ⟨[⟨1, "P", .electronics, 100, 1, 1⟩], [], 1, ⟨7, "C", 5, [], []⟩⟩

/-- The state the program surface builds for the spec's happy-path
scenario: register the product, stage it, purchase it. -/
def oneItemPurchaseTrace : MState :=
  runOps (initState 7 "C" 150)
    [Op.addProduct ⟨1, "P", .electronics, 100, 1, 1⟩, Op.addToCart 0,
     Op.makePurchase]

/-- The trace that stages the same catalog product twice (stock 1, price 1,
budget 2) and then purchases the cart. -/
def dupCartTrace : MState :=
  runOps (initState 1 "C" 2)
    [Op.addProduct ⟨1, "P", .electronics, 1, 1, 1⟩, Op.addToCart 0,
     Op.addToCart 0, Op.makePurchase]

theorem processOrder_of_all (s : MState) (cid : ℤ) (l : List ℕ)
    (h : l.all (stockOk s) = true) :
    processOrder s cid l =
      (some (newOrder s cid l),
        { s with
            products := decrementAll s.products l
            orders := s.orders ++ [newOrder s cid l]
            orderCounter := s.orderCounter + 1 }) := by
  simp [processOrder, h]

theorem processOrder_of_fail (s : MState) (cid : ℤ) (l : List ℕ)
    (h : l.all (stockOk s) = false) :
    processOrder s cid l = (none, s) := by
  simp [processOrder, h]

theorem processOrder_snd_customer (s : MState) (cid : ℤ) (l : List ℕ) :
    (processOrder s cid l).2.customer = s.customer := by
  unfold processOrder
  split <;> rfl

theorem makePurchase_of_guard_false (s : MState)
    (h : ¬(cartTotal s ≤ s.customer.budget ∧ s.customer.shoppingCart ≠ [])) :
    makePurchase s = (s, false) := by
  simp only [makePurchase, if_neg h]

theorem makePurchase_of_stock_fail (s : MState)
    (hg : cartTotal s ≤ s.customer.budget ∧ s.customer.shoppingCart ≠ [])
    (h : s.customer.shoppingCart.all (stockOk s) = false) :
    makePurchase s = (s, false) := by
  simp only [makePurchase, if_pos hg,
    processOrder_of_fail s s.customer.agentId s.customer.shoppingCart h]

theorem makePurchase_of_success (s : MState)
    (hg : cartTotal s ≤ s.customer.budget ∧ s.customer.shoppingCart ≠ [])
    (h : s.customer.shoppingCart.all (stockOk s) = true) :
    makePurchase s = (commitState s, true) := by
  simp only [makePurchase, if_pos hg,
    processOrder_of_all s s.customer.agentId s.customer.shoppingCart h,
    commitState]

theorem makePurchase_true_elim (s s1 : MState)
    (h : makePurchase s = (s1, true)) :
    (cartTotal s ≤ s.customer.budget ∧ s.customer.shoppingCart ≠ []) ∧
    s.customer.shoppingCart.all (stockOk s) = true ∧ s1 = commitState s := by
  by_cases hg : cartTotal s ≤ s.customer.budget ∧ s.customer.shoppingCart ≠ []
  · by_cases hs : s.customer.shoppingCart.all (stockOk s) = true
    · rw [makePurchase_of_success s hg hs] at h
      exact ⟨hg, hs, ((Prod.mk.injEq _ _ _ _).mp h).1.symm⟩
    · rw [makePurchase_of_stock_fail s hg (Bool.eq_false_iff.mpr hs)] at h
      exact absurd ((Prod.mk.injEq _ _ _ _).mp h).2 (by simp)
  · rw [makePurchase_of_guard_false s hg] at h
    exact absurd ((Prod.mk.injEq _ _ _ _).mp h).2 (by simp)

theorem addToCart_fst (s : MState) (i : ℕ) :
    (addToCart s i).1 = s ∨
    (addToCart s i).1 =
      { s with customer :=
          { s.customer with
              shoppingCart := s.customer.shoppingCart ++ [i] } } := by
  unfold addToCart
  split
  · split
    · exact Or.inr rfl
    · exact Or.inl rfl
  · exact Or.inl rfl

theorem commitState_orders (s : MState) :
    (commitState s).orders =
      s.orders ++ [newOrder s s.customer.agentId s.customer.shoppingCart] :=
  rfl

theorem commitState_orderCounter (s : MState) :
    (commitState s).orderCounter = s.orderCounter + 1 :=
  rfl

theorem newOrder_orderId (s : MState) (cid : ℤ) (l : List ℕ) :
    (newOrder s cid l).orderId = s.orderCounter :=
  rfl

theorem ordersInv_init (aid : ℤ) (nm : String) (budget : ℚ) :
    ordersInv (initState aid nm budget) := by
  refine ⟨?_, rfl, rfl⟩
  intro o ho
  exact absurd ho (List.not_mem_nil o)

theorem ordersInv_makePurchase (s : MState) (h : ordersInv s) :
    ordersInv (makePurchase s).1 := by
  obtain ⟨ht, hid, hc⟩ := h
  by_cases hg : cartTotal s ≤ s.customer.budget ∧ s.customer.shoppingCart ≠ []
  · by_cases hs : s.customer.shoppingCart.all (stockOk s) = true
    · rw [makePurchase_of_success s hg hs]
      show ordersInv (commitState s)
      refine ⟨?_, ?_, ?_⟩
      · rw [commitState_orders]
        intro o ho
        rcases List.mem_append.mp ho with h1 | h1
        · exact ht o h1
        · rw [List.mem_singleton.mp h1]
          rfl
      · rw [commitState_orders, List.map_append, hid, List.length_append,
          List.map_cons, List.map_nil, newOrder_orderId, hc,
          show (List.length [newOrder s s.customer.agentId
              s.customer.shoppingCart]) = 1 from rfl,
          List.range'_concat 1 s.orders.length]
        norm_num
        omega
      · rw [commitState_orderCounter, hc, commitState_orders,
          List.length_append]
        rfl
    · rw [makePurchase_of_stock_fail s hg (Bool.eq_false_iff.mpr hs)]
      exact ⟨ht, hid, hc⟩
  · rw [makePurchase_of_guard_false s hg]
    exact ⟨ht, hid, hc⟩

theorem ordersInv_applyOp (s : MState) (h : ordersInv s) (op : Op) :
    ordersInv (applyOp s op) := by
  obtain ⟨ht, hid, hc⟩ := h
  cases op with
  | addProduct p => exact ⟨ht, hid, hc⟩
  | addToCart i =>
    show ordersInv (addToCart s i).1
    rcases addToCart_fst s i with he | he <;> rw [he]
    · exact ⟨ht, hid, hc⟩
    · exact ⟨ht, hid, hc⟩
  | removeFromCart pid => exact ⟨ht, hid, hc⟩
  | makePurchase => exact ordersInv_makePurchase s ⟨ht, hid, hc⟩

theorem ordersInv_runOps (s : MState) (h : ordersInv s) (ops : List Op) :
    ordersInv (runOps s ops) := by
  induction ops generalizing s with
  | nil => exact h
  | cons op rest ih => exact ih (applyOp s op) (ordersInv_applyOp s h op)

theorem ordersInv_reachable (s : MState) (h : Reachable s) : ordersInv s := by
  obtain ⟨aid, nm, budget, ops, rfl⟩ := h
  exact ordersInv_runOps _ (ordersInv_init aid nm budget) ops

theorem applyOp_budget_nonneg (s : MState) (h0 : 0 ≤ s.customer.budget)
    (op : Op) : 0 ≤ (applyOp s op).customer.budget := by
  cases op with
  | addProduct p => exact h0
  | addToCart i =>
    show 0 ≤ (addToCart s i).1.customer.budget
    rcases addToCart_fst s i with he | he <;> rw [he] <;> exact h0
  | removeFromCart pid => exact h0
  | makePurchase =>
    show 0 ≤ (makePurchase s).1.customer.budget
    by_cases hg : cartTotal s ≤ s.customer.budget ∧ s.customer.shoppingCart ≠ []
    · by_cases hs : s.customer.shoppingCart.all (stockOk s) = true
      · rw [makePurchase_of_success s hg hs]
        show 0 ≤ s.customer.budget - cartTotal s
        exact sub_nonneg.mpr hg.1
      · rw [makePurchase_of_stock_fail s hg (Bool.eq_false_iff.mpr hs)]
        exact h0
    · rw [makePurchase_of_guard_false s hg]
      exact h0

/-- C1: the claim says every product's stock stays ≥ 0 under every sequence
of cart and purchase operations, and that a committed purchase never
decrements a product whose stock is already 0 even when the cart holds the
same product id twice.  The code violates this: staging the same stock-1
product twice passes both per-item `check_stock` tests (each only sees
"stock > 0" before any decrement), the purchase commits (one order is
ledgered), and the two decrements drive the stock to −1. -/
theorem C1_duplicate_cart_drives_stock_negative :
    dupCartTrace.products.map Product.stock = [-1] ∧
    dupCartTrace.orders.length = 1 := by
  constructor <;>
    norm_num [dupCartTrace, runOps, applyOp, addProduct, addToCart,
      makePurchase, processOrder, newOrder, cartTotal, cartItems, checkStock,
      stockOk, decrementAll, decStockAt, initState, initCustomer, List.all,
      List.find?, List.filterMap, List.foldl] <;>
    decide

/-- C2: if any entry of the list handed to `process_order` fails the stock
check, no order is returned and the state — every product's stock included —
is exactly the state before the call; and when that list is the customer's
cart, `make_purchase` returns failure with the whole state (budget and cart
included) unchanged. -/
theorem C2_failed_stock_check_aborts_whole_batch (s : MState) (cid : ℤ)
    (l : List ℕ) (h : ∃ i ∈ l, stockOk s i = false) :
    processOrder s cid l = (none, s) ∧
    (l = s.customer.shoppingCart → makePurchase s = (s, false)) := by
  have hall : l.all (stockOk s) = false := by
    rcases h with ⟨i, hi, hf⟩
    rw [List.all_eq_false]
    exact ⟨i, hi, by rw [hf]; simp⟩
  refine ⟨processOrder_of_fail s cid l hall, fun hc => ?_⟩
  by_cases hg : cartTotal s ≤ s.customer.budget ∧ s.customer.shoppingCart ≠ []
  · exact makePurchase_of_stock_fail s hg (hc ▸ hall)
  · exact makePurchase_of_guard_false s hg

theorem C2_failed_stock_check_aborts_whole_batch_witness :
    (∃ i ∈ [0], stockOk soldOutState i = false) ∧
    (processOrder soldOutState 7 [0] = (none, soldOutState) ∧
      ([0] = soldOutState.customer.shoppingCart →
        makePurchase soldOutState = (soldOutState, false))) :=
  ⟨⟨0, by decide, by decide⟩,
    C2_failed_stock_check_aborts_whole_batch soldOutState 7 [0]
      ⟨0, by decide, by decide⟩⟩

/-- C3: starting from a non-negative budget, every successful purchase
appends exactly one order and debits the budget by exactly that order's
`total_amount`, leaving it non-negative; and no surface operation of the
core makes the budget negative. -/
theorem C3_purchase_debits_budget_exactly (s : MState)
    (h0 : 0 ≤ s.customer.budget) :
    (∀ s1, makePurchase s = (s1, true) →
      ∃ o, s1.orders = s.orders ++ [o] ∧
        s1.customer.budget = s.customer.budget - o.totalAmount ∧
        0 ≤ s1.customer.budget) ∧
    (∀ op, 0 ≤ (applyOp s op).customer.budget) := by
  constructor
  · intro s1 h
    obtain ⟨hg, hs, rfl⟩ := makePurchase_true_elim s s1 h
    refine ⟨newOrder s s.customer.agentId s.customer.shoppingCart,
      commitState_orders s, rfl, ?_⟩
    show 0 ≤ s.customer.budget - cartTotal s
    exact sub_nonneg.mpr hg.1
  · exact fun op => applyOp_budget_nonneg s h0 op

theorem C3_purchase_debits_budget_exactly_witness :
    0 ≤ purchaseReadyState.customer.budget ∧
    ((∀ s1, makePurchase purchaseReadyState = (s1, true) →
      ∃ o, s1.orders = purchaseReadyState.orders ++ [o] ∧
        s1.customer.budget = purchaseReadyState.customer.budget - o.totalAmount ∧
        0 ≤ s1.customer.budget) ∧
    (∀ op, 0 ≤ (applyOp purchaseReadyState op).customer.budget)) :=
  ⟨by decide, C3_purchase_debits_budget_exactly purchaseReadyState (by decide)⟩

/-- C4: every order in the ledger of a state the program can build has
`total_amount` equal to the sum of the price fields of the products it
contains — by construction the sum is recomputed at commit time from the
cart snapshot, never taken from a previously displayed total. -/
theorem C4_order_total_is_sum_of_item_prices (s : MState) (h : Reachable s)
    (o : Order) (ho : o ∈ s.orders) :
    o.totalAmount = (o.products.map Product.price).sum :=
  (ordersInv_reachable s h).1 o ho

theorem C4_order_total_is_sum_of_item_prices_witness :
    Reachable oneItemPurchaseTrace ∧
    (⟨1, 7, [⟨1, "P", ProductCategory.electronics, 100, 1, 1⟩], 100,
        "COMPLETED"⟩ : Order) ∈ oneItemPurchaseTrace.orders ∧
    (⟨1, 7, [⟨1, "P", ProductCategory.electronics, 100, 1, 1⟩], 100,
        "COMPLETED"⟩ : Order).totalAmount =
      (((⟨1, 7, [⟨1, "P", ProductCategory.electronics, 100, 1, 1⟩], 100,
        "COMPLETED"⟩ : Order).products.map Product.price)).sum := by
  have hr : Reachable oneItemPurchaseTrace := ⟨7, "C", 150, _, rfl⟩
  have hm : (⟨1, 7, [⟨1, "P", ProductCategory.electronics, 100, 1, 1⟩], 100,
      "COMPLETED"⟩ : Order) ∈ oneItemPurchaseTrace.orders := by
    norm_num [oneItemPurchaseTrace, runOps, applyOp, addProduct, addToCart,
      makePurchase, processOrder, newOrder, cartTotal, cartItems, checkStock,
      stockOk, decrementAll, decStockAt, initState, initCustomer, List.all,
      List.find?, List.filterMap, List.foldl]
  exact ⟨hr, hm, C4_order_total_is_sum_of_item_prices _ hr _ hm⟩

/-- C5: in every state the program can build, the ledger's order ids are
strictly increasing along the ledger (hence unique, each later id greater
than every earlier one), and the first committed order carries id 1. -/
theorem C5_order_ids_strictly_increasing_from_one (s : MState)
    (h : Reachable s) :
    List.Pairwise (· < ·) (s.orders.map Order.orderId) ∧
    (∀ o, s.orders.head? = some o → o.orderId = 1) := by
  obtain ⟨-, hid, -⟩ := ordersInv_reachable s h
  constructor
  · rw [hid]
    exact List.pairwise_lt_range' 1 _
  · intro o ho
    have h1 : (s.orders.map Order.orderId).head? = some o.orderId := by
           rw [List.head?_map, ho]
           rfl
    rw [hid] at h1
    cases hn : s.orders.length with
    | zero =>
      rw [hn] at h1
      simp [List.range'] at h1
    | succ m =>
      rw [hn, List.range'_succ] at h1
      simp at h1
      omega

theorem C5_order_ids_strictly_increasing_from_one_witness :
    Reachable oneItemPurchaseTrace ∧
    (List.Pairwise (· < ·) (oneItemPurchaseTrace.orders.map Order.orderId) ∧
      (∀ o, oneItemPurchaseTrace.orders.head? = some o → o.orderId = 1)) :=
  ⟨⟨7, "C", 150, _, rfl⟩,
    C5_order_ids_strictly_increasing_from_one oneItemPurchaseTrace
      ⟨7, "C", 150, _, rfl⟩⟩

/-- C6: whenever the cart total strictly exceeds the customer's budget,
`make_purchase` returns failure and the whole state — every product's
stock, the budget and the cart — is exactly the state before the call. -/
theorem C6_over_budget_purchase_is_noop (s : MState)
    (h : s.customer.budget < cartTotal s) :
    makePurchase s = (s, false) :=
  makePurchase_of_guard_false s (fun hg => absurd hg.1 (not_le.mpr h))

theorem C6_over_budget_purchase_is_noop_witness :
    overBudgetState.customer.budget < cartTotal overBudgetState ∧
    makePurchase overBudgetState = (overBudgetState, false) :=
  ⟨by norm_num [overBudgetState, cartTotal, cartItems, List.filterMap],
    C6_over_budget_purchase_is_noop overBudgetState
      (by norm_num [overBudgetState, cartTotal, cartItems, List.filterMap])⟩

/-- C7: with an empty shopping cart, `make_purchase` always returns failure
and the state — stock, budget, cart, ledger and purchase history — is
exactly the state before the call. -/
theorem C7_empty_cart_purchase_is_noop (s : MState)
    (h : s.customer.shoppingCart = []) :
    makePurchase s = (s, false) :=
  makePurchase_of_guard_false s (fun hg => hg.2 h)

theorem C7_empty_cart_purchase_is_noop_witness :
    (initState 7 "C" 100).customer.shoppingCart = [] ∧
    makePurchase (initState 7 "C" 100) = (initState 7 "C" 100, false) :=
  ⟨rfl, C7_empty_cart_purchase_is_noop (initState 7 "C" 100) rfl⟩

/-- C8: `add_to_cart` succeeds exactly when `check_stock` holds for the
product's id at the time of adding and its price is at most the customer's
current budget; a failed add leaves the state (cart included) unchanged;
and `check_stock` itself holds exactly when a product with that id is found
in the catalog with stock > 0. -/
theorem C8_add_to_cart_guard (s : MState) (i : ℕ) (p : Product)
    (hp : s.products[i]? = some p) :
    ((addToCart s i).2 = true ↔
      (checkStock s p.id = true ∧ p.price ≤ s.customer.budget)) ∧
    ((addToCart s i).2 = false → (addToCart s i).1 = s) ∧
    (checkStock s p.id = true ↔
      ∃ q, s.products.find? (fun r => r.id == p.id) = some q ∧
        0 < q.stock) := by
  refine ⟨?_, ?_, ?_⟩
  · unfold addToCart
    simp only [hp]
    by_cases hcond : checkStock s p.id = true ∧ p.price ≤ s.customer.budget
    · rw [if_pos hcond]
      simpa using hcond
    · rw [if_neg hcond]
      simpa using hcond
  · unfold addToCart
    simp only [hp]
    by_cases hcond : checkStock s p.id = true ∧ p.price ≤ s.customer.budget
    · rw [if_pos hcond]
      simp
    · rw [if_neg hcond]
      intro _
      rfl
  · unfold checkStock
    cases hf : s.products.find? (fun r => r.id == p.id) with
    | none => simp
    | some q => simp

theorem C8_add_to_cart_guard_witness :
    lowBudgetState.products[0]? =
      some ⟨1, "X", ProductCategory.clothing, 20, 5, 1⟩ ∧
    (((addToCart lowBudgetState 0).2 = true ↔
        (checkStock lowBudgetState 1 = true ∧
          (20 : ℚ) ≤ lowBudgetState.customer.budget)) ∧
      ((addToCart lowBudgetState 0).2 = false →
        (addToCart lowBudgetState 0).1 = lowBudgetState) ∧
      (checkStock lowBudgetState 1 = true ↔
        ∃ q, lowBudgetState.products.find? (fun r => r.id == 1) = some q ∧
          0 < q.stock)) ∧
    (addToCart lowBudgetState 0).1 = lowBudgetState :=
  ⟨rfl, C8_add_to_cart_guard lowBudgetState 0 _ rfl,
    (C8_add_to_cart_guard lowBudgetState 0 _ rfl).2.1 (by decide)⟩

/-- C9: `process_order` touches only the catalog stock, the ledger and the
counter — the acting customer record (budget, cart, purchase history) is
returned untouched on every path — and it applies no budget test: whenever
every entry passes the stock check it creates and ledgers the order, no
matter how the order total compares with the customer's budget. -/
theorem C9_process_order_has_no_budget_check (s : MState) (cid : ℤ)
    (l : List ℕ) :
    (processOrder s cid l).2.customer = s.customer ∧
    (l.all (stockOk s) = true →
      processOrder s cid l =
        (some (newOrder s cid l),
          { s with
              products := decrementAll s.products l
              orders := s.orders ++ [newOrder s cid l]
              orderCounter := s.orderCounter + 1 })) :=
  ⟨processOrder_snd_customer s cid l, fun h => processOrder_of_all s cid l h⟩

theorem C9_process_order_has_no_budget_check_witness :
    [0].all (stockOk poorCustomerState) = true ∧
    poorCustomerState.customer.budget <
      (newOrder poorCustomerState 7 [0]).totalAmount ∧
    ((processOrder poorCustomerState 7 [0]).2.customer =
        poorCustomerState.customer ∧
      ([0].all (stockOk poorCustomerState) = true →
        processOrder poorCustomerState 7 [0] =
          (some (newOrder poorCustomerState 7 [0]),
            { poorCustomerState with
                products := decrementAll poorCustomerState.products [0]
                orders :=
                  poorCustomerState.orders ++ [newOrder poorCustomerState 7 [0]]
                orderCounter := poorCustomerState.orderCounter + 1 }))) :=
  ⟨by decide,
    by norm_num [poorCustomerState, newOrder, cartItems, List.filterMap],
    C9_process_order_has_no_budget_check poorCustomerState 7 [0]⟩

/-- C10: `add_to_cart` compares only the single product's price against the
customer's full current budget, ignoring what is already staged: there is a
state and a product for which two successive adds each succeed while the
resulting cart total strictly exceeds the budget, and the over-budget cart
is then rejected at purchase time. -/
theorem C10_add_budget_check_ignores_staged_items :
    ∃ (s : MState) (i : ℕ),
      (addToCart s i).2 = true ∧
      (addToCart (addToCart s i).1 i).2 = true ∧
      s.customer.budget < cartTotal (addToCart (addToCart s i).1 i).1 ∧
      (makePurchase (addToCart (addToCart s i).1 i).1).2 = false := by
  refine ⟨⟨[⟨1, "P", .electronics, 2, 5, 1⟩], [], 1, ⟨7, "C", 3, [], []⟩⟩, 0,
    ?_, ?_, ?_, ?_⟩
  · decide
  · decide
  · norm_num [addToCart, checkStock, cartTotal, cartItems, List.find?,
      List.filterMap]
  · norm_num [addToCart, checkStock, makePurchase, processOrder, newOrder,
      cartTotal, cartItems, stockOk, decrementAll, decStockAt, List.all,
      List.find?, List.filterMap, List.foldl]
